import Mathlib

/-!
Verification of the Bedrock baggage-claim agent handler
(`src/baggage_claim.py`) against its design specification.

The Python module is shallowly embedded: Python runtime values are the
inductive type `PyVal`, Python exceptions are the type `PyErr`, and every
fallible Python computation is a Lean function into `Except PyErr _`.
Each `def` below mirrors one function of the source file, keeping its
name and its control flow.
-/

/-- Python runtime values, restricted to the types this program can
encounter: strings, integers, booleans, None, lists, and dicts
(represented as insertion-ordered association lists). -/
inductive PyVal where
  | vstr : String → PyVal
  | vint : Int → PyVal
  | vbool : Bool → PyVal
  | vnone : PyVal
  | vlist : List PyVal → PyVal
  | vdict : List (PyVal × PyVal) → PyVal

open PyVal

mutual
/-- Python equality `==`, as used by the comparisons and the dict-key
identity of this program: booleans equal their integer values (`True ==
1`, `False == 0`, so `d[True]` hits the key `1`), strings compare by
content, `None` equals only itself, and lists compare elementwise.
Dict entry lists are compared positionally — Python compares dicts
without regard to entry order, but dict values are unhashable and so
never occur as dict keys, and a dict function name compares unequal to
every string either way, so this program never depends on the dict-dict
case. -/
def pyBeq : PyVal → PyVal → Bool
  | vstr a, vstr b => a == b
  | vint a, vint b => a == b
  | vint a, vbool b => a == (if b then 1 else 0)
  | vbool a, vint b => (if a then (1 : Int) else 0) == b
  | vbool a, vbool b => a == b
  | vnone, vnone => true
  | vlist xs, vlist ys => pyBeqList xs ys
  | vdict xs, vdict ys => pyBeqPairs xs ys
  | _, _ => false

/-- Elementwise `pyBeq` on lists. -/
def pyBeqList : List PyVal → List PyVal → Bool
  | [], [] => true
  | x :: xs, y :: ys => pyBeq x y && pyBeqList xs ys
  | _, _ => false

/-- Elementwise `pyBeq` on dict entry lists. -/
def pyBeqPairs : List (PyVal × PyVal) → List (PyVal × PyVal) → Bool
  | [], [] => true
  | (k, v) :: xs, (k2, v2) :: ys => pyBeq k k2 && pyBeq v v2 && pyBeqPairs xs ys
  | _, _ => false
end

/-- Python truthiness: empty string, zero, False, None, empty list and
empty dict are falsy; everything else is truthy. -/
def pyTruthy : PyVal → Bool
  | vstr s => !(s == "")
  | vint n => !(n == 0)
  | vbool b => b
  | vnone => false
  | vlist xs => !xs.isEmpty
  | vdict d => !d.isEmpty

/-- The name of the Python type of a value, as it appears in runtime
error messages. -/
def pyTypeName : PyVal → String
  | vstr _ => "str"
  | vint _ => "int"
  | vbool _ => "bool"
  | vnone => "NoneType"
  | vlist _ => "list"
  | vdict _ => "dict"

mutual
/-- Python `repr` of a value. Strings are wrapped in single quotes:
this is exactly what `str(e)` produces for a `KeyError e`, which is how
the field name reaches the error body built by `lambda_handler`. -/
def pyRepr : PyVal → String
  | vstr s => "\x27" ++ s ++ "\x27"
  | vint n => toString n
  | vbool b => if b then "True" else "False"
  | vnone => "None"
  | vlist xs => "[" ++ pyReprItems xs ++ "]"
  | vdict d => "\x7b" ++ pyReprEntries d ++ "\x7d"

/-- Comma-joined `repr` of list items. -/
def pyReprItems : List PyVal → String
  | [] => ""
  | [x] => pyRepr x
  | x :: xs => pyRepr x ++ ", " ++ pyReprItems xs

/-- Comma-joined `repr` of dict entries. -/
def pyReprEntries : List (PyVal × PyVal) → String
  | [] => ""
  | [(k, v)] => pyRepr k ++ ": " ++ pyRepr v
  | (k, v) :: xs => pyRepr k ++ ": " ++ pyRepr v ++ ", " ++ pyReprEntries xs
end

/-- Python `str` of a value, as interpolated by f-strings: the string
itself for strings, `repr`-like rendering otherwise. -/
def pyStr : PyVal → String
  | vstr s => s
  | v => pyRepr v

/-- Python hashability of a value: lists and dicts are unhashable and
cannot serve as dict keys; using one as a key raises `TypeError`. -/
def pyHashable : PyVal → Bool
  | vlist _ => false
  | vdict _ => false
  | _ => true

mutual
/-- The canonical form of a value under Python equality: booleans
collapse to their integer values, recursively. `pyBeq` holds exactly
when the canonical forms coincide. -/
def pyCanon : PyVal → PyVal
  | vstr s => vstr s
  | vint n => vint n
  | vbool b => vint (if b then 1 else 0)
  | vnone => vnone
  | vlist xs => vlist (pyCanonList xs)
  | vdict d => vdict (pyCanonPairs d)

/-- Elementwise canonical form of a value list. -/
def pyCanonList : List PyVal → List PyVal
  | [] => []
  | x :: xs => pyCanon x :: pyCanonList xs

/-- Elementwise canonical form of a dict entry list. -/
def pyCanonPairs : List (PyVal × PyVal) → List (PyVal × PyVal)
  | [] => []
  | (k, v) :: xs => (pyCanon k, pyCanon v) :: pyCanonPairs xs
end

/-- Python exceptions raised by this program: `KeyError` (carrying the
missing key), `ValueError`, `TypeError` and `AttributeError` (carrying
their message). All four derive from `Exception`. -/
inductive PyErr where
  | keyError : PyVal → PyErr
  | valueError : String → PyErr
  | typeError : String → PyErr
  | attributeError : String → PyErr

/-- First-match lookup of a key in a dict entry list (Python dicts hold
at most one entry per key, so first match is the match). -/
def dictLookup : List (PyVal × PyVal) → PyVal → Option PyVal
  | [], _ => none
  | (k0, v0) :: rest, k => if pyBeq k0 k then some v0 else dictLookup rest k

/-- Python dict assignment `d[k] = v` on a hashable key: overwrite the
value of an existing equal key in place keeping the stored key object —
`d = {1: ...}; d[True] = y` yields `{1: y}` — otherwise append the new
entry at the end (insertion order). The hashability check of the
assignment is made at the call site. -/
def dictSet : List (PyVal × PyVal) → PyVal → PyVal → List (PyVal × PyVal)
  | [], k, v => [(k, v)]
  | (k0, v0) :: rest, k, v =>
      if pyBeq k0 k then (k0, v) :: rest else (k0, v0) :: dictSet rest k v

/-- Python subscript `d[key]` on a dict entry list: the value, or a
`KeyError` carrying the key. -/
def dictSubscript (d : List (PyVal × PyVal)) (key : String) : Except PyErr PyVal :=
  match dictLookup d (vstr key) with
  | some x => Except.ok x
  | none => Except.error (PyErr.keyError (vstr key))

/-- Python subscript `v[key]` with a string-literal key, as used on the
incoming event: a dict lookup when `v` is a dict, a `TypeError`
otherwise (this program only subscripts with string keys). -/
def pySubscript (v : PyVal) (key : String) : Except PyErr PyVal :=
  match v with
  | vdict d => dictSubscript d key
  | vlist _ => Except.error (PyErr.typeError ("list indices must be integers or slices, not str"))
  | vstr _ => Except.error (PyErr.typeError ("string indices must be integers"))
  | w => Except.error (PyErr.typeError ("\x27" ++ pyTypeName w ++ "\x27 object is not subscriptable"))

/-- Python `v.get(key, fallback)`: only dicts have a `get` method, so a
non-dict receiver raises `AttributeError` (this is what makes the
except-clauses of `lambda_handler` themselves fallible). -/
def pyDictGet (v : PyVal) (key : String) (fallback : PyVal) : Except PyErr PyVal :=
  match v with
  | vdict d => Except.ok ((dictLookup d (vstr key)).getD fallback)
  | w => Except.error (PyErr.attributeError ("\x27" ++ pyTypeName w ++ "\x27 object has no attribute \x27get\x27"))

/-- Enumeration of supported function names (`SupportedFunctions` in the
source). -/
inductive SupportedFunctions where
  | FIND_BAGGAGE
  | CHECK_FLIGHT_STATUS
  | BOOK_FLIGHT
  | CANCEL_RESERVATION

/-- The `value` of each enumeration member. -/
def SupportedFunctions.value : SupportedFunctions → String
  | FIND_BAGGAGE => "find_baggage"
  | CHECK_FLIGHT_STATUS => "check_flight_status"
  | BOOK_FLIGHT => "book_flight"
  | CANCEL_RESERVATION => "cancel_reservation"

/-- The members of the enumeration in declaration order, which is the
iteration order of `[func.value for func in SupportedFunctions]`. -/
def SupportedFunctions.members : List SupportedFunctions :=
  [FIND_BAGGAGE, CHECK_FLIGHT_STATUS, BOOK_FLIGHT, CANCEL_RESERVATION]

/-- The shape check applied to each item of the parameters list:
`isinstance(item, dict) and (name-key) in item and (value-key) in item`;
on success, the pair `(item[name-key], item[value-key])`. -/
def itemNameValue : PyVal → Option (PyVal × PyVal)
  | vdict d =>
      match dictLookup d (vstr ("name")), dictLookup d (vstr ("value")) with
      | some n, some v => some (n, v)
      | _, _ => none
  | _ => none

/-- The loop body of `extract_parameters`: fold the items in order into
the accumulated dict, skipping items that fail the shape check. The
assignment `result[item[name-key]] = item[value-key]` hashes the name,
so a list or dict name raises `TypeError: unhashable type`. -/
def extractLoop (result : List (PyVal × PyVal)) : List PyVal → Except PyErr (List (PyVal × PyVal))
  | [] => Except.ok result
  | item :: rest =>
      match itemNameValue item with
      | some (n, v) =>
          if pyHashable n then extractLoop (dictSet result n v) rest
          else Except.error (PyErr.typeError ("unhashable type: \x27" ++ pyTypeName n ++ "\x27"))
      | none => extractLoop result rest

/-- `extract_parameters`: extract parameters from the Bedrock agent
event format. A non-list input yields the empty dict; a list is folded
in order, last write winning on duplicate names (under Python key
equality), and an unhashable name raises out of the fold. -/
def extract_parameters (parameters : PyVal) : Except PyErr (List (PyVal × PyVal)) :=
  match parameters with
  | vlist items => extractLoop [] items
  | _ => Except.ok []

/-- `validate_required_params`: collect the required keys whose value in
`params` is absent or falsy (`params.get(param)` defaults to None);
raise a `ValueError` naming them, comma-joined, when any exist. -/
def validate_required_params (params : List (PyVal × PyVal)) (required : List String) : Except PyErr Unit :=
  let missing := required.filter (fun p => !pyTruthy ((dictLookup params (vstr p)).getD vnone))
  if missing.isEmpty then Except.ok ()
  else Except.error (PyErr.valueError ("Missing required parameters: " ++ String.intercalate (", ") missing))

/-- `create_response`: the standardized Bedrock agent response envelope.
The action group, function and body are inserted verbatim. -/
def create_response (action_group function body : PyVal) : PyVal :=
  vdict [
    (vstr ("response"), vdict [
      (vstr ("actionGroup"), action_group),
      (vstr ("function"), function),
      (vstr ("functionResponse"), vdict [
        (vstr ("responseBody"), vdict [
          (vstr ("TEXT"), vdict [
            (vstr ("body"), body)])])])]),
    (vstr ("messageVersion"), vint 1)]

/-- `find_baggage`: mock baggage-location message (f-string over the two
inputs). -/
def find_baggage (flight_number phone_number : PyVal) : String :=
  "Found baggage information for flight " ++ pyStr flight_number ++
  ". Your baggage is currently at baggage claim area B. Contact number on file: " ++
  pyStr phone_number

/-- `check_flight_status`: mock status message. -/
def check_flight_status (flight_number : PyVal) : String :=
  "Flight " ++ pyStr flight_number ++
  " is currently on time. Departure: 3:30 PM, Arrival: 6:45 PM, Gate: A12"

/-- `book_flight`: mock booking confirmation with the fixed confirmation
code ABC123. -/
def book_flight (departure_city arrival_city departure_date passenger_name phone_number : PyVal) : String :=
  let confirmation_code := "ABC123"
  "Flight booked successfully! Confirmation code: " ++ confirmation_code ++
  ". Route: " ++ pyStr departure_city ++ " to " ++ pyStr arrival_city ++
  " on " ++ pyStr departure_date ++
  ". Passenger: " ++ pyStr passenger_name ++ ", Contact: " ++ pyStr phone_number

/-- `cancel_reservation`: mock cancellation message. -/
def cancel_reservation (confirmation_code phone_number : PyVal) : String :=
  "Reservation " ++ pyStr confirmation_code ++
  " has been successfully canceled. Refund will be processed to the original payment method within 3-5 business days."

/-- `route_function_call`: match the function name against the four
enumeration values; validate that branch's required keys, then call the
handler with the values subscripted from the parameter dict. An
unmatched name raises a `ValueError` listing the supported names. -/
def route_function_call (function_name : PyVal) (params : List (PyVal × PyVal)) : Except PyErr String :=
  if pyBeq function_name (vstr SupportedFunctions.FIND_BAGGAGE.value) then
    match validate_required_params params ["phoneNumber", "flightNumber"] with
    | Except.error e => Except.error e
    | Except.ok _ =>
        match dictSubscript params ("flightNumber") with
        | Except.error e => Except.error e
        | Except.ok fn =>
            match dictSubscript params ("phoneNumber") with
            | Except.error e => Except.error e
            | Except.ok pn => Except.ok (find_baggage fn pn)
  else if pyBeq function_name (vstr SupportedFunctions.CHECK_FLIGHT_STATUS.value) then
    match validate_required_params params ["flightNumber"] with
    | Except.error e => Except.error e
    | Except.ok _ =>
        match dictSubscript params ("flightNumber") with
        | Except.error e => Except.error e
        | Except.ok fn => Except.ok (check_flight_status fn)
  else if pyBeq function_name (vstr SupportedFunctions.BOOK_FLIGHT.value) then
    match validate_required_params params ["departureCity", "arrivalCity", "departureDate", "passengerName", "phoneNumber"] with
    | Except.error e => Except.error e
    | Except.ok _ =>
        match dictSubscript params ("departureCity") with
        | Except.error e => Except.error e
        | Except.ok dc =>
            match dictSubscript params ("arrivalCity") with
            | Except.error e => Except.error e
            | Except.ok ac =>
                match dictSubscript params ("departureDate") with
                | Except.error e => Except.error e
                | Except.ok dd =>
                    match dictSubscript params ("passengerName") with
                    | Except.error e => Except.error e
                    | Except.ok pn =>
                        match dictSubscript params ("phoneNumber") with
                        | Except.error e => Except.error e
                        | Except.ok ph => Except.ok (book_flight dc ac dd pn ph)
  else if pyBeq function_name (vstr SupportedFunctions.CANCEL_RESERVATION.value) then
    match validate_required_params params ["confirmationCode", "phoneNumber"] with
    | Except.error e => Except.error e
    | Except.ok _ =>
        match dictSubscript params ("confirmationCode") with
        | Except.error e => Except.error e
        | Except.ok cc =>
            match dictSubscript params ("phoneNumber") with
            | Except.error e => Except.error e
            | Except.ok pn => Except.ok (cancel_reservation cc pn)
  else
    Except.error (PyErr.valueError ("Unsupported function: " ++ pyStr function_name ++
      ". Supported: " ++ String.intercalate (", ") (SupportedFunctions.members.map SupportedFunctions.value)))

/-- The try-block of `lambda_handler`: extract `actionGroup`,
`function`, the optional `parameters` and the (unused) `agent` from the
event, in source order; build the parameter dict; route; wrap the
result body in the response envelope. Any exception propagates to the
except-clauses. -/
def lambda_handler_try (event : PyVal) : Except PyErr PyVal :=
  match pySubscript event ("actionGroup") with
  | Except.error e => Except.error e
  | Except.ok action_group =>
      match pySubscript event ("function") with
      | Except.error e => Except.error e
      | Except.ok function_name =>
          match pyDictGet event ("parameters") (vlist []) with
          | Except.error e => Except.error e
          | Except.ok parameters =>
              match pySubscript event ("agent") with
              | Except.error e => Except.error e
              | Except.ok _agent =>
                  match extract_parameters parameters with
                  | Except.error e => Except.error e
                  | Except.ok params =>
                      match route_function_call function_name params with
                      | Except.error e => Except.error e
                      | Except.ok result_body =>
                          Except.ok (create_response action_group function_name (vstr result_body))

/-- The except-clauses of `lambda_handler`: `KeyError` yields the
missing-field body (with `str(e)`, the `repr` of the key), `ValueError`
the validation-error body, and any other exception the generic body; in
each case `actionGroup` and `function` are re-read permissively with the
fallback literal `unknown`. Those permissive reads use `event.get` and
therefore themselves raise `AttributeError` when the event is not a
dict; such an error propagates out of the handler. -/
def lambda_handler_except (event : PyVal) (e : PyErr) : Except PyErr PyVal :=
  match e with
  | PyErr.keyError k =>
      match pyDictGet event ("actionGroup") (vstr ("unknown")) with
      | Except.error e2 => Except.error e2
      | Except.ok ag =>
          match pyDictGet event ("function") (vstr ("unknown")) with
          | Except.error e2 => Except.error e2
          | Except.ok fn =>
              Except.ok (create_response ag fn
                (vstr ("Missing required field: " ++ pyRepr k ++ ". Please contact IT support.")))
  | PyErr.valueError m =>
      match pyDictGet event ("actionGroup") (vstr ("unknown")) with
      | Except.error e2 => Except.error e2
      | Except.ok ag =>
          match pyDictGet event ("function") (vstr ("unknown")) with
          | Except.error e2 => Except.error e2
          | Except.ok fn =>
              Except.ok (create_response ag fn
                (vstr ("Validation error: " ++ m ++ ". Please check your input and try again.")))
  | _ =>
      match pyDictGet event ("actionGroup") (vstr ("unknown")) with
      | Except.error e2 => Except.error e2
      | Except.ok ag =>
          match pyDictGet event ("function") (vstr ("unknown")) with
          | Except.error e2 => Except.error e2
          | Except.ok fn =>
              Except.ok (create_response ag fn
                (vstr ("An unexpected error occurred. Please contact IT support.")))

/-- `lambda_handler`: run the try-block; on an exception run the
matching except-clause. A value `Except.error e` of the whole handler
models `lambda_handler` itself raising `e` to its caller. -/
def lambda_handler (event _context : PyVal) : Except PyErr PyVal :=
  match lambda_handler_try event with
  | Except.ok r => Except.ok r
  | Except.error e => lambda_handler_except event e

/-- The order in which `lambda_handler` subscripts the required
top-level event fields. -/
def requiredEventFields : List String := ["actionGroup", "function", "agent"]

/-- The first required top-level field absent from the event dict, if
any: the field whose `KeyError` the try-block raises. -/
def firstMissingField (d : List (PyVal × PyVal)) : Option String :=
  requiredEventFields.find? (fun k => (dictLookup d (vstr k)).isNone)

/-- The truthiness of `params.get(k)`, the per-key test of the
validator. -/
def param_truthy (params : List (PyVal × PyVal)) (k : String) : Bool :=
  pyTruthy ((dictLookup params (vstr k)).getD vnone)

/-- Spec-side description of the Parameter Extractor result: the value
of the last well-formed item whose name equals `k`, if any. -/
def lastValueFor : List PyVal → PyVal → Option PyVal
  | [], _ => none
  | item :: rest, k =>
      match lastValueFor rest k with
      | some v => some v
      | none =>
          match itemNameValue item with
          | some (n, v) => if pyBeq n k then some v else none
          | none => none

/-- Walk a chain of string keys through nested dicts. -/
def envField (r : PyVal) (path : List String) : Option PyVal :=
  path.foldl
    (fun acc k => acc.bind (fun v =>
      match v with
      | vdict d => dictLookup d (vstr k)
      | _ => none))
    (some r)

/-- The well-formed Response Envelope shape of the specification:
`response.actionGroup`, `response.function`,
`response.functionResponse.responseBody.TEXT.body` holding a string,
and `messageVersion` equal to the integer 1. -/
def isEnvelope (r : PyVal) : Bool :=
  match r with
  | vdict [(k1, vdict [(ka, _), (kf, _), (kr, vdict [(kb, vdict [(kt, vdict [(kbody, vstr _)])])])]), (km, mv)] =>
      pyBeq k1 (vstr ("response")) && pyBeq ka (vstr ("actionGroup")) &&
      pyBeq kf (vstr ("function")) && pyBeq kr (vstr ("functionResponse")) &&
      pyBeq kb (vstr ("responseBody")) && pyBeq kt (vstr ("TEXT")) &&
      pyBeq kbody (vstr ("body")) && pyBeq km (vstr ("messageVersion")) && pyBeq mv (vint 1)
  | _ => false

/-- A string occurs inside another (substring as an explicit split). -/
def containsStr (s v : String) : Prop := ∃ p q, s = p ++ v ++ q

/-- The body text of a response value: the string under
`response.functionResponse.responseBody.TEXT.body`, or the empty string
when the value is not shaped that way. -/
def bodyText (x : Except PyErr PyVal) : String :=
  match x with
  | Except.ok r =>
      match envField r ["response", "functionResponse", "responseBody", "TEXT", "body"] with
      | some (vstr s) => s
      | _ => ""
  | Except.error _ => ""

/-- The message of a `ValueError` result, or the empty string. -/
def valueErrText (x : Except PyErr String) : String :=
  match x with
  | Except.error (PyErr.valueError m) => m
  | _ => ""

/-! ## Helper lemmas -/

mutual
/-- `pyBeq` holds exactly when the canonical forms coincide: Python
equality identifies a boolean with its integer value and nothing
else. -/
theorem pyBeq_iff : ∀ a b, pyBeq a b = true ↔ pyCanon a = pyCanon b
  | vstr a, vstr b => by simp [pyBeq, pyCanon]
  | vint a, vint b => by simp [pyBeq, pyCanon]
  | vint a, vbool b => by cases b <;> simp [pyBeq, pyCanon]
  | vbool a, vint b => by cases a <;> simp [pyBeq, pyCanon]
  | vbool a, vbool b => by cases a <;> cases b <;> simp [pyBeq, pyCanon]
  | vnone, vnone => by simp [pyBeq, pyCanon]
  | vlist xs, vlist ys => by simp [pyBeq, pyCanon, pyBeqList_iff xs ys]
  | vdict xs, vdict ys => by simp [pyBeq, pyCanon, pyBeqPairs_iff xs ys]
  | vstr _, vint _ => by simp [pyBeq, pyCanon]
  | vstr _, vbool _ => by simp [pyBeq, pyCanon]
  | vstr _, vnone => by simp [pyBeq, pyCanon]
  | vstr _, vlist _ => by simp [pyBeq, pyCanon]
  | vstr _, vdict _ => by simp [pyBeq, pyCanon]
  | vint _, vstr _ => by simp [pyBeq, pyCanon]
  | vint _, vnone => by simp [pyBeq, pyCanon]
  | vint _, vlist _ => by simp [pyBeq, pyCanon]
  | vint _, vdict _ => by simp [pyBeq, pyCanon]
  | vbool _, vstr _ => by simp [pyBeq, pyCanon]
  | vbool _, vnone => by simp [pyBeq, pyCanon]
  | vbool _, vlist _ => by simp [pyBeq, pyCanon]
  | vbool _, vdict _ => by simp [pyBeq, pyCanon]
  | vnone, vstr _ => by simp [pyBeq, pyCanon]
  | vnone, vint _ => by simp [pyBeq, pyCanon]
  | vnone, vbool _ => by simp [pyBeq, pyCanon]
  | vnone, vlist _ => by simp [pyBeq, pyCanon]
  | vnone, vdict _ => by simp [pyBeq, pyCanon]
  | vlist _, vstr _ => by simp [pyBeq, pyCanon]
  | vlist _, vint _ => by simp [pyBeq, pyCanon]
  | vlist _, vbool _ => by simp [pyBeq, pyCanon]
  | vlist _, vnone => by simp [pyBeq, pyCanon]
  | vlist _, vdict _ => by simp [pyBeq, pyCanon]
  | vdict _, vstr _ => by simp [pyBeq, pyCanon]
  | vdict _, vint _ => by simp [pyBeq, pyCanon]
  | vdict _, vbool _ => by simp [pyBeq, pyCanon]
  | vdict _, vnone => by simp [pyBeq, pyCanon]
  | vdict _, vlist _ => by simp [pyBeq, pyCanon]

/-- `pyBeqList` holds exactly when the canonical forms coincide. -/
theorem pyBeqList_iff : ∀ xs ys, pyBeqList xs ys = true ↔ pyCanonList xs = pyCanonList ys
  | [], [] => by simp [pyBeqList, pyCanonList]
  | x :: xs, y :: ys => by
      simp [pyBeqList, pyCanonList, pyBeq_iff x y, pyBeqList_iff xs ys]
  | [], _ :: _ => by simp [pyBeqList, pyCanonList]
  | _ :: _, [] => by simp [pyBeqList, pyCanonList]

/-- `pyBeqPairs` holds exactly when the canonical forms coincide. -/
theorem pyBeqPairs_iff : ∀ xs ys, pyBeqPairs xs ys = true ↔ pyCanonPairs xs = pyCanonPairs ys
  | [], [] => by simp [pyBeqPairs, pyCanonPairs]
  | (k, v) :: xs, (k2, v2) :: ys => by
      simp [pyBeqPairs, pyCanonPairs, pyBeq_iff k k2, pyBeq_iff v v2, pyBeqPairs_iff xs ys,
        and_assoc]
  | [], _ :: _ => by simp [pyBeqPairs, pyCanonPairs]
  | _ :: _, [] => by simp [pyBeqPairs, pyCanonPairs]
end

theorem pyBeq_refl (a : PyVal) : pyBeq a a = true := (pyBeq_iff a a).mpr rfl

/-- Two equal keys compare equally against every third key: Python
equality is an equivalence on values. -/
theorem pyBeq_congr_left (a b k : PyVal) (h : pyBeq a b = true) : pyBeq a k = pyBeq b k := by
  have hc := (pyBeq_iff a b).mp h
  by_cases h1 : pyBeq a k = true
  · have h2 : pyBeq b k = true := (pyBeq_iff b k).mpr (hc.symm.trans ((pyBeq_iff a k).mp h1))
    rw [h1, h2]
  · have h2 : pyBeq b k ≠ true := fun hb =>
      h1 ((pyBeq_iff a k).mpr (hc.trans ((pyBeq_iff b k).mp hb)))
    simp only [Bool.not_eq_true] at h1 h2
    rw [h1, h2]

theorem str_append_assoc (a b c : String) : a ++ b ++ c = a ++ (b ++ c) := by
  cases a with
  | mk da =>
      cases b with
      | mk db =>
          cases c with
          | mk dc =>
              show String.mk (da ++ db ++ dc) = String.mk (da ++ (db ++ dc))
              rw [List.append_assoc]

theorem str_append_empty (s : String) : s ++ "" = s := by
  cases s with
  | mk ds =>
      show String.mk (ds ++ []) = String.mk ds
      rw [List.append_nil]

theorem filter_isEmpty_iff {α : Type} (p : α → Bool) :
    ∀ l : List α, (l.filter p).isEmpty = true ↔ ∀ a ∈ l, p a = false := by
  intro l
  induction l with
  | nil => simp
  | cons a l ih =>
      by_cases h : p a = true
      · simp [List.filter_cons, h, List.isEmpty]
      · simp only [Bool.not_eq_true] at h
        simp [List.filter_cons, h, ih]

/-- Looking up after a dict assignment: any key equal to the assigned
one reads the new value, every other key is unaffected. -/
theorem dictLookup_dictSet (d : List (PyVal × PyVal)) (kn v k) :
    dictLookup (dictSet d kn v) k = if pyBeq kn k then some v else dictLookup d k := by
  induction d with
  | nil => simp [dictSet, dictLookup]
  | cons hd tl ih =>
      obtain ⟨k0, v0⟩ := hd
      by_cases h0 : pyBeq k0 kn = true
      · have hck : pyBeq k0 k = pyBeq kn k := pyBeq_congr_left k0 kn k h0
        by_cases h1 : pyBeq kn k = true
        · simp [dictSet, dictLookup, h0, h1, hck.trans h1]
        · have h1b : pyBeq kn k = false := by simpa using h1
          have h2 : pyBeq k0 k = false := hck.trans h1b
          simp [dictSet, dictLookup, h0, h1b, h2]
      · have h0b : pyBeq k0 kn = false := by simpa using h0
        by_cases h1 : pyBeq k0 k = true
        · have h2 : pyBeq kn k = false := by
            by_contra hc
            simp only [Bool.not_eq_false] at hc
            have e1 := (pyBeq_iff k0 k).mp h1
            have e2 := (pyBeq_iff kn k).mp hc
            have e3 : pyBeq k0 kn = true := (pyBeq_iff k0 kn).mpr (e1.trans e2.symm)
            rw [e3] at h0b
            cases h0b
          simp [dictSet, dictLookup, h0b, h1, h2]
        · have h1b : pyBeq k0 k = false := by simpa using h1
          simp [dictSet, dictLookup, h0b, h1b, ih]

theorem validate_ok_iff (params : List (PyVal × PyVal)) (required : List String) :
    validate_required_params params required = Except.ok () ↔
      ∀ k ∈ required, param_truthy params k = true := by
  unfold validate_required_params
  by_cases h : (required.filter (fun p => !pyTruthy ((dictLookup params (vstr p)).getD vnone))).isEmpty = true
  · simp only [h, if_pos]
    have h2 := (filter_isEmpty_iff _ required).mp h
    constructor
    · intro _ k hk
      have h3 := h2 k hk
      simp only [Bool.not_eq_eq_eq_not, Bool.not_false] at h3
      exact h3
    · intro _
      trivial
  · have h4 : (required.filter (fun p => !pyTruthy ((dictLookup params (vstr p)).getD vnone))).isEmpty = false := by
      simpa using h
    simp only [h4, Bool.false_eq_true, if_false]
    constructor
    · intro hcon
      exact Except.noConfusion hcon
    · intro hall
      exfalso
      apply h
      rw [filter_isEmpty_iff]
      intro k hk
      have h5 := hall k hk
      simp only [param_truthy] at h5
      simp [h5]

/-- A validator failure always carries a `ValueError`. -/
theorem validate_error_valueError (params : List (PyVal × PyVal)) (required : List String) (e : PyErr)
    (h : validate_required_params params required = Except.error e) : ∃ m, e = PyErr.valueError m := by
  unfold validate_required_params at h
  by_cases h2 : (required.filter (fun p => !pyTruthy ((dictLookup params (vstr p)).getD vnone))).isEmpty = true
  · simp only [h2, if_pos] at h
    exact Except.noConfusion h
  · have h4 : (required.filter (fun p => !pyTruthy ((dictLookup params (vstr p)).getD vnone))).isEmpty = false := by
      simpa using h2
    simp only [h4, Bool.false_eq_true, if_false] at h
    injection h with h5
    exact ⟨_, h5.symm⟩

/-- Once the validator has passed, every required key is present with a
truthy value. -/
theorem validate_ok_lookup (params : List (PyVal × PyVal)) (required : List String) (k : String)
    (h : validate_required_params params required = Except.ok ()) (hk : k ∈ required) :
    ∃ v, dictLookup params (vstr k) = some v ∧ pyTruthy v = true := by
  have h2 := (validate_ok_iff params required).mp h k hk
  unfold param_truthy at h2
  cases h3 : dictLookup params (vstr k) with
  | none =>
      rw [h3] at h2
      simp [Option.getD, pyTruthy] at h2
  | some v =>
      rw [h3] at h2
      simp only [Option.getD] at h2
      exact ⟨v, rfl, h2⟩

/-- Once the validator has passed, subscripting a required key succeeds. -/
theorem dictSubscript_ok_of_validate (params : List (PyVal × PyVal)) (required : List String) (k : String)
    (h : validate_required_params params required = Except.ok ()) (hk : k ∈ required) :
    ∃ v, dictSubscript params k = Except.ok v := by
  obtain ⟨v, hv, _⟩ := validate_ok_lookup params required k h hk
  exact ⟨v, by simp [dictSubscript, hv]⟩

/-- The extraction loop returns normally exactly when every well-shaped
item in the remaining input has a hashable name. -/
theorem extractLoop_ok_iff : ∀ (items : List PyVal) (acc : List (PyVal × PyVal)),
    (∃ d, extractLoop acc items = Except.ok d) ↔
      ∀ item ∈ items, ∀ n v, itemNameValue item = some (n, v) → pyHashable n = true := by
  intro items
  induction items with
  | nil =>
      intro acc
      simp [extractLoop]
  | cons item rest ih =>
      intro acc
      cases hi : itemNameValue item with
      | none =>
          simp only [extractLoop, hi]
          rw [ih acc]
          constructor
          · intro hall item2 hm n v hnv
            rcases List.mem_cons.mp hm with h2 | h2
            · subst h2
              rw [hi] at hnv
              exact Option.noConfusion hnv
            · exact hall item2 h2 n v hnv
          · intro hall item2 hm n v hnv
            exact hall item2 (List.mem_cons_of_mem _ hm) n v hnv
      | some nv =>
          obtain ⟨n, v⟩ := nv
          cases hh : pyHashable n with
          | true =>
              simp only [extractLoop, hi, hh, if_true]
              rw [ih (dictSet acc n v)]
              constructor
              · intro hall item2 hm n2 v2 hnv
                rcases List.mem_cons.mp hm with h2 | h2
                · subst h2
                  rw [hi] at hnv
                  have h3 := Option.some.inj hnv
                  have h4 : n = n2 := congrArg Prod.fst h3
                  rw [← h4]
                  exact hh
                · exact hall item2 h2 n2 v2 hnv
              · intro hall item2 hm n2 v2 hnv
                exact hall item2 (List.mem_cons_of_mem _ hm) n2 v2 hnv
          | false =>
              simp only [extractLoop, hi, hh, Bool.false_eq_true, if_false]
              constructor
              · intro hex
                obtain ⟨d, hd⟩ := hex
                exact Except.noConfusion hd
              · intro hall
                have h2 := hall item (List.mem_cons_self item rest) n v hi
                rw [hh] at h2
                exact absurd h2 (by simp)

/-- Lookup in a normally-returned extraction loop result: the last
matching write in the remaining items, else the accumulator. -/
theorem extractLoop_ok_lookup : ∀ (items : List PyVal) (acc d : List (PyVal × PyVal)),
    extractLoop acc items = Except.ok d →
    ∀ k, dictLookup d k =
      (match lastValueFor items k with
       | some v => some v
       | none => dictLookup acc k) := by
  intro items
  induction items with
  | nil =>
      intro acc d h k
      injection h with h2
      subst h2
      rfl
  | cons item rest ih =>
      intro acc d h k
      cases hi : itemNameValue item with
      | none =>
          simp only [extractLoop, hi] at h
          rw [ih acc d h k]
          cases hr : lastValueFor rest k with
          | some w => simp [lastValueFor, hr]
          | none => simp [lastValueFor, hr, hi]
      | some nv =>
          obtain ⟨n, v⟩ := nv
          cases hh : pyHashable n with
          | false =>
              simp only [extractLoop, hi, hh, Bool.false_eq_true, if_false] at h
              exact Except.noConfusion h
          | true =>
              simp only [extractLoop, hi, hh, if_true] at h
              rw [ih (dictSet acc n v) d h k]
              cases hr : lastValueFor rest k with
              | some w => simp [lastValueFor, hr]
              | none =>
                  by_cases hb : pyBeq n k = true
                  · simp [lastValueFor, hr, hi, hb, dictLookup_dictSet]
                  · have hb2 : pyBeq n k = false := by simpa using hb
                    simp [lastValueFor, hr, hi, hb2, dictLookup_dictSet]

/-- Every except-clause of `lambda_handler`, run on a dict event,
returns a response envelope. -/
theorem lambda_handler_except_dict (d : List (PyVal × PyVal)) (e : PyErr) :
    ∃ ag fn b, lambda_handler_except (vdict d) e = Except.ok (create_response ag fn (vstr b)) := by
  cases e with
  | keyError k => exact ⟨_, _, _, rfl⟩
  | valueError m => exact ⟨_, _, _, rfl⟩
  | typeError m => exact ⟨_, _, _, rfl⟩
  | attributeError m => exact ⟨_, _, _, rfl⟩

/-- A successful try-block always produces a response envelope. -/
theorem lambda_handler_try_ok (ev : PyVal) (r : PyVal)
    (h : lambda_handler_try ev = Except.ok r) :
    ∃ ag fn b, r = create_response ag fn (vstr b) := by
  unfold lambda_handler_try at h
  repeat' split at h
  all_goals first
    | exact Except.noConfusion h
    | (injection h with h2; exact ⟨_, _, _, h2.symm⟩)

/-- On any dict event, `lambda_handler` returns a response envelope. -/
theorem lambda_handler_dict_shape (d : List (PyVal × PyVal)) (ctx : PyVal) :
    ∃ ag fn b, lambda_handler (vdict d) ctx = Except.ok (create_response ag fn (vstr b)) := by
  cases h : lambda_handler_try (vdict d) with
  | ok r =>
      obtain ⟨ag, fn, b, hr⟩ := lambda_handler_try_ok _ _ h
      exact ⟨ag, fn, b, by simp [lambda_handler, h, hr]⟩
  | error e =>
      obtain ⟨ag, fn, b, hr⟩ := lambda_handler_except_dict d e
      exact ⟨ag, fn, b, by simp [lambda_handler, h, hr]⟩

/-- Any envelope built by `create_response` with a string body passes
the well-formedness check. -/
theorem isEnvelope_create_response (ag fn : PyVal) (b : String) :
    isEnvelope (create_response ag fn (vstr b)) = true := rfl

/-! ## Claims -/

/-- C1 counterexample: the claim quantifies over every incoming event
value, but on a non-mapping event (here the integer 42) the subscript
in the try-block raises a `TypeError`, the catch-all except-clause then
calls `event.get`, and that call raises an `AttributeError` which
propagates out of `lambda_handler` — the Entry Point does raise, and
returns no envelope. -/
theorem lambda_handler_raises_on_nonmapping_event :
    lambda_handler (vint 42) vnone =
      Except.error (PyErr.attributeError ("\x27int\x27 object has no attribute \x27get\x27")) := rfl

/-- C1 (amended): for every event that is a mapping, and every context,
`lambda_handler` returns a well-formed Response Envelope and never
raises: any failure during field extraction, parameter extraction or
routing is caught and re-encoded as an envelope carrying an error
body. -/
theorem lambda_handler_wellformed_envelope (d : List (PyVal × PyVal)) (ctx : PyVal) :
    ∃ r, lambda_handler (vdict d) ctx = Except.ok r ∧ isEnvelope r = true := by
  obtain ⟨ag, fn, b, h⟩ := lambda_handler_dict_shape d ctx
  exact ⟨_, h, isEnvelope_create_response ag fn b⟩

/-- C10: for every event that is a mapping (whatever fields it carries)
and every context, `lambda_handler` terminates with some response built
by `create_response` carrying a string body: the except-clauses cover
every exception of the try-block, and on a mapping event the permissive
`event.get` reads of the error paths cannot themselves fail. -/
theorem lambda_handler_total_on_mapping (d : List (PyVal × PyVal)) (ctx : PyVal) :
    ∃ ag fn b, lambda_handler (vdict d) ctx = Except.ok (create_response ag fn (vstr b)) :=
  lambda_handler_dict_shape d ctx

/-- C2 counterexample: for the event `{}` (missing `actionGroup`), the
body wraps the field name in single quotes — `str` of a `KeyError` is
the `repr` of the key — so it is not exactly
`Missing required field: actionGroup. Please contact IT support.` as
the claim states. -/
theorem missing_field_quotes_counterexample :
    lambda_handler (vdict []) vnone =
      Except.ok (create_response (vstr ("unknown")) (vstr ("unknown"))
        (vstr ("Missing required field: \x27actionGroup\x27. Please contact IT support."))) ∧
    lambda_handler (vdict []) vnone ≠
      Except.ok (create_response (vstr ("unknown")) (vstr ("unknown"))
        (vstr ("Missing required field: actionGroup. Please contact IT support."))) := by
  refine ⟨rfl, fun hc => ?_⟩
  exact absurd (congrArg bodyText hc) (by decide)

/-- C2 (amended): for every mapping event on which the first absent
required top-level field (in extraction order `actionGroup`,
`function`, `agent`) is `k`, the Entry Point returns an envelope whose
body is exactly `Missing required field: 'k'. Please contact IT
support.` — the field name wrapped in single quotes by the string form
of the `KeyError` — and whose actionGroup/function fall back to the
literal `unknown` exactly when those fields are absent from the
event. -/
theorem missing_field_envelope (d : List (PyVal × PyVal)) (ctx : PyVal) (k : String)
    (h : firstMissingField d = some k) :
    lambda_handler (vdict d) ctx = Except.ok (create_response
      ((dictLookup d (vstr ("actionGroup"))).getD (vstr ("unknown")))
      ((dictLookup d (vstr ("function"))).getD (vstr ("unknown")))
      (vstr ("Missing required field: \x27" ++ k ++ "\x27. Please contact IT support."))) := by
  unfold firstMissingField requiredEventFields at h
  cases hag : dictLookup d (vstr ("actionGroup")) with
  | none =>
      have hk : k = "actionGroup" := by
        rw [List.find?_cons_of_pos _ (by rw [hag]; rfl)] at h
        exact (Option.some.inj h).symm
      subst hk
      have htry : lambda_handler_try (vdict d) = Except.error (PyErr.keyError (vstr ("actionGroup"))) := by
        unfold lambda_handler_try
        simp [pySubscript, dictSubscript, hag]
      unfold lambda_handler
      rw [htry, ← hag]
      rfl
  | some ag2 =>
      cases hfn : dictLookup d (vstr ("function")) with
      | none =>
          have hk : k = "function" := by
            rw [List.find?_cons_of_neg _ (by simp [hag])] at h
            rw [List.find?_cons_of_pos _ (by rw [hfn]; rfl)] at h
            exact (Option.some.inj h).symm
          subst hk
          have htry : lambda_handler_try (vdict d) = Except.error (PyErr.keyError (vstr ("function"))) := by
            unfold lambda_handler_try
            simp [pySubscript, dictSubscript, hag, hfn]
          unfold lambda_handler
          rw [htry, ← hag, ← hfn]
          rfl
      | some fn2 =>
          cases hagent : dictLookup d (vstr ("agent")) with
          | none =>
              have hk : k = "agent" := by
                rw [List.find?_cons_of_neg _ (by simp [hag])] at h
                rw [List.find?_cons_of_neg _ (by simp [hfn])] at h
                rw [List.find?_cons_of_pos _ (by rw [hagent]; rfl)] at h
                exact (Option.some.inj h).symm
              subst hk
              have htry : lambda_handler_try (vdict d) = Except.error (PyErr.keyError (vstr ("agent"))) := by
                unfold lambda_handler_try
                simp [pySubscript, dictSubscript, pyDictGet, hag, hfn, hagent]
              unfold lambda_handler
              rw [htry, ← hag, ← hfn]
              rfl
          | some agent2 =>
              rw [List.find?_cons_of_neg _ (by simp [hag])] at h
              rw [List.find?_cons_of_neg _ (by simp [hfn])] at h
              rw [List.find?_cons_of_neg _ (by simp [hagent])] at h
              exact Option.noConfusion h

/-- C2 witness: the empty event evaluates as the amended claim
predicts. -/
theorem missing_field_envelope_witness :
    firstMissingField [] = some ("actionGroup") ∧
    lambda_handler (vdict []) vnone = Except.ok (create_response
      ((dictLookup [] (vstr ("actionGroup"))).getD (vstr ("unknown")))
      ((dictLookup [] (vstr ("function"))).getD (vstr ("unknown")))
      (vstr ("Missing required field: \x27actionGroup\x27. Please contact IT support."))) :=
  ⟨rfl, missing_field_envelope [] vnone ("actionGroup") rfl⟩

/-- C3: the Validator fails iff at least one required key is absent
from the mapping or maps to a falsy value; on failure the message names
exactly the offending keys, comma-joined, in required-list order; on
success it returns normally with no value. -/
theorem validate_required_params_spec (params : List (PyVal × PyVal)) (required : List String) :
    (validate_required_params params required = Except.ok () ↔
      ∀ k ∈ required, param_truthy params k = true) ∧
    ((∃ k ∈ required, param_truthy params k = false) →
      validate_required_params params required =
        Except.error (PyErr.valueError ("Missing required parameters: " ++
          String.intercalate (", ") (required.filter (fun k => !param_truthy params k))))) := by
  refine ⟨validate_ok_iff params required, fun hex => ?_⟩
  unfold validate_required_params
  have h4 : (required.filter (fun p => !pyTruthy ((dictLookup params (vstr p)).getD vnone))).isEmpty = false := by
    obtain ⟨k, hk, hfk⟩ := hex
    by_contra hc
    simp only [Bool.not_eq_false] at hc
    have h5 := (filter_isEmpty_iff _ required).mp hc k hk
    unfold param_truthy at hfk
    simp [hfk] at h5
  simp only [h4, Bool.false_eq_true, if_false]
  rfl

/-- C3 witness: with an empty parameter map, both find-baggage keys are
falsy and the failure message names both, in list order. -/
theorem validate_required_params_spec_witness :
    (∃ k ∈ ["phoneNumber", "flightNumber"], param_truthy [] k = false) ∧
    validate_required_params [] ["phoneNumber", "flightNumber"] =
      Except.error (PyErr.valueError ("Missing required parameters: phoneNumber, flightNumber")) := by
  refine ⟨⟨"phoneNumber", by simp, rfl⟩, ?_⟩
  exact (validate_required_params_spec [] ["phoneNumber", "flightNumber"]).2 ⟨"phoneNumber", by simp, rfl⟩

/-- C4 counterexample: with both find-baggage keys missing, the failure
message lists `phoneNumber, flightNumber` — the order of the validation
call in the code — not `flightNumber, phoneNumber` as the claim states
from the documented table order. -/
theorem find_baggage_order_counterexample :
    route_function_call (vstr ("find_baggage")) [] =
      Except.error (PyErr.valueError ("Missing required parameters: phoneNumber, flightNumber")) ∧
    route_function_call (vstr ("find_baggage")) [] ≠
      Except.error (PyErr.valueError ("Missing required parameters: flightNumber, phoneNumber")) := by
  refine ⟨rfl, fun hc => ?_⟩
  exact absurd (congrArg valueErrText hc) (by decide)

/-- C4 (amended): when the Router is called with find_baggage and both
required keys are missing or falsy, the failure message lists
`phoneNumber` then `flightNumber`, the order of the required-key list
passed to the validator in the code. -/
theorem find_baggage_missing_order (params : List (PyVal × PyVal))
    (h1 : param_truthy params ("phoneNumber") = false)
    (h2 : param_truthy params ("flightNumber") = false) :
    route_function_call (vstr ("find_baggage")) params =
      Except.error (PyErr.valueError ("Missing required parameters: phoneNumber, flightNumber")) := by
  have hval : validate_required_params params ["phoneNumber", "flightNumber"] =
      Except.error (PyErr.valueError ("Missing required parameters: phoneNumber, flightNumber")) := by
    unfold validate_required_params
    unfold param_truthy at h1 h2
    simp [List.filter_cons, h1, h2]
    rfl
  unfold route_function_call
  rw [hval]
  rfl

/-- C4 witness: the empty parameter map realizes the amended claim. -/
theorem find_baggage_missing_order_witness :
    param_truthy [] ("phoneNumber") = false ∧ param_truthy [] ("flightNumber") = false ∧
    route_function_call (vstr ("find_baggage")) [] =
      Except.error (PyErr.valueError ("Missing required parameters: phoneNumber, flightNumber")) :=
  ⟨rfl, rfl, find_baggage_missing_order [] rfl rfl⟩

/-- C5 counterexample: the claim asserts the extractor always folds a
list input into a mapping, silently skipping only ill-shaped items; but
the dict assignment hashes the name, so a well-shaped item whose name
is a list makes `extract_parameters` raise `TypeError: unhashable
type` instead of returning a mapping. Moreover Python key equality
identifies `True` with `1`, so a write under name `True` overwrites the
entry stored under name `1` (keeping the stored key), rather than
creating a second key as structural last-write-wins would. -/
theorem extract_parameters_unhashable_counterexample :
    extract_parameters (vlist
      [vdict [(vstr ("name"), vlist [vstr ("a")]), (vstr ("value"), vint 1)]]) =
      Except.error (PyErr.typeError ("unhashable type: \x27list\x27")) ∧
    extract_parameters (vlist
      [vdict [(vstr ("name"), vint 1), (vstr ("value"), vstr ("x"))],
       vdict [(vstr ("name"), vbool true), (vstr ("value"), vstr ("y"))]]) =
      Except.ok [(vint 1, vstr ("y"))] := ⟨rfl, rfl⟩

/-- C5 (amended): the Parameter Extractor returns an empty mapping on
any non-list input without raising; on a list it folds the items in
order, silently skipping every item failing the shape check; it returns
normally exactly when every well-shaped item has a hashable name (a
list or dict name raises `TypeError: unhashable type` from the dict
assignment), and on normal return every key reads the value of the last
well-shaped item whose name equals it under Python key equality, which
identifies `True`/`False` with `1`/`0`. -/
theorem extract_parameters_spec :
    (∀ v : PyVal, (∀ xs, v ≠ vlist xs) → extract_parameters v = Except.ok []) ∧
    (∀ items : List PyVal,
      (∃ d, extract_parameters (vlist items) = Except.ok d) ↔
        ∀ item ∈ items, ∀ n v, itemNameValue item = some (n, v) → pyHashable n = true) ∧
    (∀ (items : List PyVal) (d : List (PyVal × PyVal)),
      extract_parameters (vlist items) = Except.ok d →
      ∀ k : PyVal, dictLookup d k = lastValueFor items k) := by
  refine ⟨?_, ?_, ?_⟩
  · intro v hv
    cases v with
    | vlist xs => exact absurd rfl (hv xs)
    | vstr s => rfl
    | vint n => rfl
    | vbool b => rfl
    | vnone => rfl
    | vdict d2 => rfl
  · intro items
    exact extractLoop_ok_iff items []
  · intro items d h k
    rw [extractLoop_ok_lookup items [] d h k]
    cases hr : lastValueFor items k with
    | some w => rfl
    | none => rfl

/-- C5 witness: a None input yields the empty mapping; a concrete list
with a duplicate name and an ill-shaped item extracts normally (all
names hashable) and keeps the last value. -/
theorem extract_parameters_spec_witness :
    (∀ xs, vnone ≠ vlist xs) ∧ extract_parameters vnone = Except.ok [] ∧
    extract_parameters (vlist
      [vdict [(vstr ("name"), vstr ("a")), (vstr ("value"), vint 1)],
       vstr ("junk"),
       vdict [(vstr ("name"), vstr ("a")), (vstr ("value"), vint 2)]]) =
      Except.ok [(vstr ("a"), vint 2)] ∧
    (∀ item ∈
      [vdict [(vstr ("name"), vstr ("a")), (vstr ("value"), vint 1)],
       vstr ("junk"),
       vdict [(vstr ("name"), vstr ("a")), (vstr ("value"), vint 2)]],
      ∀ n v, itemNameValue item = some (n, v) → pyHashable n = true) ∧
    dictLookup [(vstr ("a"), vint 2)] (vstr ("a")) =
      lastValueFor
        [vdict [(vstr ("name"), vstr ("a")), (vstr ("value"), vint 1)],
         vstr ("junk"),
         vdict [(vstr ("name"), vstr ("a")), (vstr ("value"), vint 2)]] (vstr ("a")) ∧
    lastValueFor
        [vdict [(vstr ("name"), vstr ("a")), (vstr ("value"), vint 1)],
         vstr ("junk"),
         vdict [(vstr ("name"), vstr ("a")), (vstr ("value"), vint 2)]] (vstr ("a")) = some (vint 2) :=
  ⟨fun _ h => PyVal.noConfusion h,
   extract_parameters_spec.1 vnone (fun _ h => PyVal.noConfusion h),
   rfl,
   (extract_parameters_spec.2.1 _).mp ⟨_, rfl⟩,
   extract_parameters_spec.2.2
     [vdict [(vstr ("name"), vstr ("a")), (vstr ("value"), vint 1)],
      vstr ("junk"),
      vdict [(vstr ("name"), vstr ("a")), (vstr ("value"), vint 2)]]
     [(vstr ("a"), vint 2)] rfl (vstr ("a")),
   rfl⟩

/-- C6: the Router called with any function-name string outside the
four supported names fails with a `ValueError` naming the offending
function and listing all four supported names, comma-joined, in
enumeration-declaration order. -/
theorem route_unsupported_message (s : String) (params : List (PyVal × PyVal))
    (h : s ∉ SupportedFunctions.members.map SupportedFunctions.value) :
    route_function_call (vstr s) params =
      Except.error (PyErr.valueError ("Unsupported function: " ++ s ++
        ". Supported: " ++ String.intercalate (", ")
          (SupportedFunctions.members.map SupportedFunctions.value))) := by
  simp only [SupportedFunctions.members, SupportedFunctions.value, List.map_cons, List.map_nil,
    List.mem_cons, List.not_mem_nil, or_false, not_or] at h
  obtain ⟨h1, h2, h3, h4⟩ := h
  have c1 : pyBeq (vstr s) (vstr SupportedFunctions.FIND_BAGGAGE.value) = false := by
    simp [pyBeq, SupportedFunctions.value, h1]
  have c2 : pyBeq (vstr s) (vstr SupportedFunctions.CHECK_FLIGHT_STATUS.value) = false := by
    simp [pyBeq, SupportedFunctions.value, h2]
  have c3 : pyBeq (vstr s) (vstr SupportedFunctions.BOOK_FLIGHT.value) = false := by
    simp [pyBeq, SupportedFunctions.value, h3]
  have c4 : pyBeq (vstr s) (vstr SupportedFunctions.CANCEL_RESERVATION.value) = false := by
    simp [pyBeq, SupportedFunctions.value, h4]
  unfold route_function_call
  simp only [c1, c2, c3, c4, Bool.false_eq_true, if_false]
  rfl

/-- C6 witness: an unsupported name evaluates to the documented
message. -/
theorem route_unsupported_message_witness :
    ("teleport" ∉ SupportedFunctions.members.map SupportedFunctions.value) ∧
    route_function_call (vstr ("teleport")) [] =
      Except.error (PyErr.valueError
        ("Unsupported function: teleport. Supported: find_baggage, check_flight_status, book_flight, cancel_reservation")) := by
  refine ⟨by decide, ?_⟩
  exact route_unsupported_message ("teleport") [] (by decide)

/-- C7: `create_response` deterministically builds exactly the fixed
envelope shape with `messageVersion` 1, passing the action group, the
function and the body through verbatim with no validation, and every
result of the Entry Point on a mapping event — success or error path —
is such an envelope. -/
theorem create_response_envelope_spec (a f b : String) (ag fn bv : PyVal)
    (d : List (PyVal × PyVal)) (ctx : PyVal) :
    create_response (vstr a) (vstr f) (vstr b) =
      vdict [
        (vstr ("response"), vdict [
          (vstr ("actionGroup"), vstr a),
          (vstr ("function"), vstr f),
          (vstr ("functionResponse"), vdict [
            (vstr ("responseBody"), vdict [
              (vstr ("TEXT"), vdict [
                (vstr ("body"), vstr b)])])])]),
        (vstr ("messageVersion"), vint 1)] ∧
    envField (create_response ag fn bv) ["response", "actionGroup"] = some ag ∧
    envField (create_response ag fn bv) ["response", "function"] = some fn ∧
    envField (create_response ag fn bv)
      ["response", "functionResponse", "responseBody", "TEXT", "body"] = some bv ∧
    envField (create_response ag fn bv) ["messageVersion"] = some (vint 1) ∧
    (∃ ag2 fn2 b2, lambda_handler (vdict d) ctx = Except.ok (create_response ag2 fn2 (vstr b2))) :=
  ⟨rfl, rfl, rfl, rfl, rfl, lambda_handler_dict_shape d ctx⟩

/-- C8: the Router called with book_flight and truthy values for all
five required keys returns the handler result, a string containing the
fixed confirmation code ABC123 and all five supplied values. -/
theorem route_book_flight_contains (params : List (PyVal × PyVal))
    (dc ac dd pn ph : String)
    (hdc : dictLookup params (vstr ("departureCity")) = some (vstr dc)) (hdc2 : dc ≠ "")
    (hac : dictLookup params (vstr ("arrivalCity")) = some (vstr ac)) (hac2 : ac ≠ "")
    (hdd : dictLookup params (vstr ("departureDate")) = some (vstr dd)) (hdd2 : dd ≠ "")
    (hpn : dictLookup params (vstr ("passengerName")) = some (vstr pn)) (hpn2 : pn ≠ "")
    (hph : dictLookup params (vstr ("phoneNumber")) = some (vstr ph)) (hph2 : ph ≠ "") :
    route_function_call (vstr ("book_flight")) params =
      Except.ok (book_flight (vstr dc) (vstr ac) (vstr dd) (vstr pn) (vstr ph)) ∧
    containsStr (book_flight (vstr dc) (vstr ac) (vstr dd) (vstr pn) (vstr ph)) ("ABC123") ∧
    containsStr (book_flight (vstr dc) (vstr ac) (vstr dd) (vstr pn) (vstr ph)) dc ∧
    containsStr (book_flight (vstr dc) (vstr ac) (vstr dd) (vstr pn) (vstr ph)) ac ∧
    containsStr (book_flight (vstr dc) (vstr ac) (vstr dd) (vstr pn) (vstr ph)) dd ∧
    containsStr (book_flight (vstr dc) (vstr ac) (vstr dd) (vstr pn) (vstr ph)) pn ∧
    containsStr (book_flight (vstr dc) (vstr ac) (vstr dd) (vstr pn) (vstr ph)) ph := by
  have hval : validate_required_params params
      ["departureCity", "arrivalCity", "departureDate", "passengerName", "phoneNumber"] =
      Except.ok () := by
    unfold validate_required_params
    simp [List.filter_cons, hdc, hac, hdd, hpn, hph, pyTruthy, hdc2, hac2, hdd2, hpn2, hph2]
  have s1 : dictSubscript params ("departureCity") = Except.ok (vstr dc) := by
    simp [dictSubscript, hdc]
  have s2 : dictSubscript params ("arrivalCity") = Except.ok (vstr ac) := by
    simp [dictSubscript, hac]
  have s3 : dictSubscript params ("departureDate") = Except.ok (vstr dd) := by
    simp [dictSubscript, hdd]
  have s4 : dictSubscript params ("passengerName") = Except.ok (vstr pn) := by
    simp [dictSubscript, hpn]
  have s5 : dictSubscript params ("phoneNumber") = Except.ok (vstr ph) := by
    simp [dictSubscript, hph]
  refine ⟨?_, ?_, ?_, ?_, ?_, ?_, ?_⟩
  · unfold route_function_call
    rw [hval, s1, s2, s3, s4, s5]
    rfl
  · exact ⟨"Flight booked successfully! Confirmation code: ",
      ". Route: " ++ dc ++ " to " ++ ac ++ " on " ++ dd ++ ". Passenger: " ++ pn ++ ", Contact: " ++ ph,
      by simp only [book_flight, pyStr, str_append_assoc, str_append_empty]⟩
  · exact ⟨"Flight booked successfully! Confirmation code: " ++ "ABC123" ++ ". Route: ",
      " to " ++ ac ++ " on " ++ dd ++ ". Passenger: " ++ pn ++ ", Contact: " ++ ph,
      by simp only [book_flight, pyStr, str_append_assoc, str_append_empty]⟩
  · exact ⟨"Flight booked successfully! Confirmation code: " ++ "ABC123" ++ ". Route: " ++ dc ++ " to ",
      " on " ++ dd ++ ". Passenger: " ++ pn ++ ", Contact: " ++ ph,
      by simp only [book_flight, pyStr, str_append_assoc, str_append_empty]⟩
  · exact ⟨"Flight booked successfully! Confirmation code: " ++ "ABC123" ++ ". Route: " ++ dc ++ " to " ++ ac ++ " on ",
      ". Passenger: " ++ pn ++ ", Contact: " ++ ph,
      by simp only [book_flight, pyStr, str_append_assoc, str_append_empty]⟩
  · exact ⟨"Flight booked successfully! Confirmation code: " ++ "ABC123" ++ ". Route: " ++ dc ++ " to " ++ ac ++ " on " ++ dd ++ ". Passenger: ",
      ", Contact: " ++ ph,
      by simp only [book_flight, pyStr, str_append_assoc, str_append_empty]⟩
  · exact ⟨"Flight booked successfully! Confirmation code: " ++ "ABC123" ++ ". Route: " ++ dc ++ " to " ++ ac ++ " on " ++ dd ++ ". Passenger: " ++ pn ++ ", Contact: ",
      "",
      by simp only [book_flight, pyStr, str_append_assoc, str_append_empty]⟩

/-- C8 witness: a concrete full parameter map books a flight whose
message carries the confirmation code. -/
theorem route_book_flight_contains_witness :
    dictLookup
      [(vstr ("departureCity"), vstr ("Paris")), (vstr ("arrivalCity"), vstr ("Rome")),
       (vstr ("departureDate"), vstr ("2026-01-01")), (vstr ("passengerName"), vstr ("Ada")),
       (vstr ("phoneNumber"), vstr ("555"))] (vstr ("departureCity")) = some (vstr ("Paris")) ∧
    ("Paris" : String) ≠ "" ∧
    route_function_call (vstr ("book_flight"))
      [(vstr ("departureCity"), vstr ("Paris")), (vstr ("arrivalCity"), vstr ("Rome")),
       (vstr ("departureDate"), vstr ("2026-01-01")), (vstr ("passengerName"), vstr ("Ada")),
       (vstr ("phoneNumber"), vstr ("555"))] =
      Except.ok (book_flight (vstr ("Paris")) (vstr ("Rome")) (vstr ("2026-01-01"))
        (vstr ("Ada")) (vstr ("555"))) ∧
    containsStr (book_flight (vstr ("Paris")) (vstr ("Rome")) (vstr ("2026-01-01"))
        (vstr ("Ada")) (vstr ("555"))) ("ABC123") := by
  have h := route_book_flight_contains
    [(vstr ("departureCity"), vstr ("Paris")), (vstr ("arrivalCity"), vstr ("Rome")),
     (vstr ("departureDate"), vstr ("2026-01-01")), (vstr ("passengerName"), vstr ("Ada")),
     (vstr ("phoneNumber"), vstr ("555"))]
    ("Paris") ("Rome") ("2026-01-01") ("Ada") ("555")
    rfl (by decide) rfl (by decide) rfl (by decide) rfl (by decide) rfl (by decide)
  exact ⟨rfl, by decide, h.1, h.2.1⟩

/-- C9: whenever the validator has returned normally for a branch of
the Router, every key of that required list is present (with a truthy
value) in the parameter map; consequently no branch of
`route_function_call` can fail with a missing-key error — a `KeyError`
result is impossible for every function name and parameter map. -/
theorem route_validated_keys_present :
    (∀ (params : List (PyVal × PyVal)) (required : List String),
      validate_required_params params required = Except.ok () →
      ∀ k ∈ required, ∃ v, dictLookup params (vstr k) = some v ∧ pyTruthy v = true) ∧
    (∀ (function_name : PyVal) (params : List (PyVal × PyVal)) (k : PyVal),
      route_function_call function_name params ≠ Except.error (PyErr.keyError k)) := by
  refine ⟨fun params required h k hk => validate_ok_lookup params required k h hk, ?_⟩
  intro function_name params k hcon
  unfold route_function_call at hcon
  by_cases c1 : pyBeq function_name (vstr SupportedFunctions.FIND_BAGGAGE.value) = true
  · rw [if_pos c1] at hcon
    cases hv : validate_required_params params ["phoneNumber", "flightNumber"] with
    | error e =>
        obtain ⟨m, hm⟩ := validate_error_valueError _ _ _ hv
        subst hm
        rw [hv] at hcon
        simp at hcon
    | ok u =>
        cases u
        rw [hv] at hcon
        obtain ⟨v1, hv1⟩ := dictSubscript_ok_of_validate _ _ ("flightNumber") hv (by simp)
        obtain ⟨v2, hv2⟩ := dictSubscript_ok_of_validate _ _ ("phoneNumber") hv (by simp)
        rw [hv1, hv2] at hcon
        simp at hcon
  · rw [if_neg c1] at hcon
    by_cases c2 : pyBeq function_name (vstr SupportedFunctions.CHECK_FLIGHT_STATUS.value) = true
    · rw [if_pos c2] at hcon
      cases hv : validate_required_params params ["flightNumber"] with
      | error e =>
          obtain ⟨m, hm⟩ := validate_error_valueError _ _ _ hv
          subst hm
          rw [hv] at hcon
          simp at hcon
      | ok u =>
          cases u
          rw [hv] at hcon
          obtain ⟨v1, hv1⟩ := dictSubscript_ok_of_validate _ _ ("flightNumber") hv (by simp)
          rw [hv1] at hcon
          simp at hcon
    · rw [if_neg c2] at hcon
      by_cases c3 : pyBeq function_name (vstr SupportedFunctions.BOOK_FLIGHT.value) = true
      · rw [if_pos c3] at hcon
        cases hv : validate_required_params params
            ["departureCity", "arrivalCity", "departureDate", "passengerName", "phoneNumber"] with
        | error e =>
            obtain ⟨m, hm⟩ := validate_error_valueError _ _ _ hv
            subst hm
            rw [hv] at hcon
            simp at hcon
        | ok u =>
            cases u
            rw [hv] at hcon
            obtain ⟨v1, hv1⟩ := dictSubscript_ok_of_validate _ _ ("departureCity") hv (by simp)
            obtain ⟨v2, hv2⟩ := dictSubscript_ok_of_validate _ _ ("arrivalCity") hv (by simp)
            obtain ⟨v3, hv3⟩ := dictSubscript_ok_of_validate _ _ ("departureDate") hv (by simp)
            obtain ⟨v4, hv4⟩ := dictSubscript_ok_of_validate _ _ ("passengerName") hv (by simp)
            obtain ⟨v5, hv5⟩ := dictSubscript_ok_of_validate _ _ ("phoneNumber") hv (by simp)
            rw [hv1, hv2, hv3, hv4, hv5] at hcon
            simp at hcon
      · rw [if_neg c3] at hcon
        by_cases c4 : pyBeq function_name (vstr SupportedFunctions.CANCEL_RESERVATION.value) = true
        · rw [if_pos c4] at hcon
          cases hv : validate_required_params params ["confirmationCode", "phoneNumber"] with
          | error e =>
              obtain ⟨m, hm⟩ := validate_error_valueError _ _ _ hv
              subst hm
              rw [hv] at hcon
              simp at hcon
          | ok u =>
              cases u
              rw [hv] at hcon
              obtain ⟨v1, hv1⟩ := dictSubscript_ok_of_validate _ _ ("confirmationCode") hv (by simp)
              obtain ⟨v2, hv2⟩ := dictSubscript_ok_of_validate _ _ ("phoneNumber") hv (by simp)
              rw [hv1, hv2] at hcon
              simp at hcon
        · rw [if_neg c4] at hcon
          simp at hcon

/-- C9 witness: a validated map subscripts successfully, and no
`KeyError` escapes the Router on a concrete unvalidated call. -/
theorem route_validated_keys_present_witness :
    validate_required_params [(vstr ("flightNumber"), vstr ("UA1"))] ["flightNumber"] = Except.ok () ∧
    (∃ v, dictLookup [(vstr ("flightNumber"), vstr ("UA1"))] (vstr ("flightNumber")) = some v ∧
      pyTruthy v = true) ∧
    route_function_call (vstr ("find_baggage")) [] ≠ Except.error (PyErr.keyError (vstr ("phoneNumber"))) :=
  ⟨rfl,
   route_validated_keys_present.1 [(vstr ("flightNumber"), vstr ("UA1"))] ["flightNumber"] rfl
     ("flightNumber") (by simp),
   route_validated_keys_present.2 (vstr ("find_baggage")) [] (vstr ("phoneNumber"))⟩
